import Mathlib

/-!
Shallow embedding of the OAuth token-lifecycle core of `src/main.py`
(a FastAPI VAT-filing front-end).

Modelling conventions:
* `time.time()` is modelled as an integer timestamp (`Int`); the comparisons
  in the source are order-theoretic so only their strictness matters.
* Python dict token sets `t.get("obtained_at")` / `t.get("expires_in", 0)`
  become `Option Int` fields; Python truthiness of a numeric-or-None value
  is the predicate `truthy` below.
* HTTP exceptions `HTTPException(status, text)` become the error type `Err`.
* The network is modelled by passing in the upstream reply the HTTP client
  would have produced; each operation additionally reports how many
  token-endpoint requests it issued and which refresh token it sent, so
  that "invokes the exchange exactly once" is a provable statement.
* File persistence (`tokens.json`, `receipts.json`) is modelled as explicit
  file-content fields threaded through the state; a missing or unparsable
  file is `none` (the source maps both to the same fallback).
-/

namespace MTD

/-- Python truthiness of a numeric-or-None value: `None`, `0` and `0.0`
are falsy, every other number is truthy. -/
def truthy : Option Int → Bool
  | none => false
  | some v => v != 0

/-- The stored token set: the JSON object kept in `STORE["tokens"]` and in
`tokens.json`.  `access_token` and `refresh_token` are accessed with
`t["..."]` in the source (required); `obtained_at` and `expires_in` are
accessed with `.get` (optional). -/
structure TokenSet where
  access_token : String
  refresh_token : String
  expires_in : Option Int
  obtained_at : Option Int
deriving DecidableEq, Repr

/-- Parsed JSON body of a successful `/oauth/token` reply (the source
requires `access_token` and `refresh_token`; `expires_in` is read back
later with `.get`). -/
structure TokenResponse where
  access_token : String
  refresh_token : String
  expires_in : Option Int
deriving DecidableEq, Repr

/-- A reply of the authority's `/oauth/token` endpoint: raw status and body
text, plus the parsed JSON used when the status is below 400. -/
structure TokenEndpointReply where
  status : Nat
  body : String
  json : TokenResponse
deriving DecidableEq, Repr

/-- A reply of an authority API endpoint (obligations, returns, ...): the
source only uses `r.status_code` and `r.text` on the error path. -/
structure HttpResponse where
  status : Nat
  body : String
deriving DecidableEq, Repr

/-- `HTTPException(status, detail)`: the single error shape the source
raises everywhere. -/
inductive Err where
  | http (status : Nat) (body : String)
deriving DecidableEq, Repr

/-- The process state touched by the token lifecycle: the in-memory
`STORE["tokens"]` and `STORE["state"]` slots plus the persisted content of
`tokens.json` (`none` = file absent or unreadable). -/
structure Store where
  tokens : Option TokenSet
  state : Option String
  tokenFile : Option TokenSet
deriving DecidableEq, Repr

/-- Outcome of one `access_token()` call: the returned token or raised
exception, the state after the call, the number of refresh-token requests
issued, and the refresh token sent in such a request (if any). -/
structure AccessTokenOutcome where
  result : Except Err String
  store : Store
  refreshCalls : Nat
  refreshTokenSent : Option String
deriving Repr

/-- `access_token()` from `src/main.py` lines 117–144.  `now` is the value
`time.time()` returns during the call; `reply` is what the token endpoint
would answer if a refresh request is issued. -/
def access_token (st : Store) (now : Int) (reply : TokenEndpointReply) :
    AccessTokenOutcome :=
  match st.tokens with
  | none =>
    { result := .error (.http 401 "Not connected to HMRC yet."),
      store := st, refreshCalls := 0, refreshTokenSent := none }
  | some t =>
    let obtained := t.obtained_at
    let expires_in := t.expires_in.getD 0
    -- source: `if obtained and (obtained + expires_in - 60) < time.time():`
    if truthy obtained && decide (obtained.getD 0 + expires_in - 60 < now) then
      if reply.status ≥ 400 then
        { result := .error (.http reply.status reply.body),
          store := st, refreshCalls := 1,
          refreshTokenSent := some t.refresh_token }
      else
        let t2 : TokenSet :=
          { access_token := reply.json.access_token,
            refresh_token := reply.json.refresh_token,
            expires_in := reply.json.expires_in,
            obtained_at := some now }
        { result := .ok t2.access_token,
          store := { st with tokens := some t2, tokenFile := some t2 },
          refreshCalls := 1, refreshTokenSent := some t.refresh_token }
    else
      { result := .ok t.access_token, store := st,
        refreshCalls := 0, refreshTokenSent := none }

/-- `connect` (lines 192–196): generate a nonce (passed in, since it is a
fresh `uuid4`), store it in `STORE["state"]`, redirect the browser.  Only
the state effect is modelled. -/
def connect (st : Store) (nonce : String) : Store :=
  { st with state := some nonce }

/-- Outcome of one `oauth_callback` call.  The success response's display
text is not modelled (`Except Err Unit`). -/
structure CallbackOutcome where
  result : Except Err Unit
  store : Store
  exchangeCalls : Nat
deriving Repr

/-- `oauth_callback` (lines 198–215): check `state` against the stored
nonce, then run the authorization-code exchange, stamp `obtained_at`,
store and persist the new token set.  `reply` is the token endpoint's
answer to the exchange request. -/
def oauth_callback (st : Store) (state : String) (now : Int)
    (reply : TokenEndpointReply) : CallbackOutcome :=
  -- source: `if state != STORE.get("state")`; a str never equals None
  if some state ≠ st.state then
    { result := .error (.http 400 "state mismatch"), store := st,
      exchangeCalls := 0 }
  else if reply.status ≥ 400 then
    { result := .error (.http reply.status reply.body), store := st,
      exchangeCalls := 1 }
  else
    let t : TokenSet :=
      { access_token := reply.json.access_token,
        refresh_token := reply.json.refresh_token,
        expires_in := reply.json.expires_in,
        obtained_at := some now }
    { result := .ok (),
      store := { st with tokens := some t, tokenFile := some t },
      exchangeCalls := 1 }

/-- `/api/obligations` (lines 217–228) as a function of the token state and
of the upstream reply the authority would give.  JSON parsing of the
success body is modelled as the identity on the body text; the source's
`r.json() if r.text else {}` maps an empty body to `{}`. -/
def obligations_route (st : Store) (now : Int)
    (refreshReply : TokenEndpointReply) (upstream : HttpResponse) :
    Except Err String :=
  match (access_token st now refreshReply).result with
  | .error e => .error e
  | .ok _tok =>
    if upstream.status ≥ 400 then .error (.http upstream.status upstream.body)
    else .ok (if upstream.body = "" then "\x7b\x7d" else upstream.body)

/-- `/api/returns/view` (lines 248–256), same contract as
`obligations_route` but without the empty-body fallback. -/
def view_return_route (st : Store) (now : Int)
    (refreshReply : TokenEndpointReply) (upstream : HttpResponse) :
    Except Err String :=
  match (access_token st now refreshReply).result with
  | .error e => .error e
  | .ok _tok =>
    if upstream.status ≥ 400 then .error (.http upstream.status upstream.body)
    else .ok upstream.body

/-! ### Receipt log -/

/-- A JSON value stored in a receipt record.  `vrn` is a string, a missing
`periodKey` is JSON null, and the values of the upstream response body are
carried abstractly as `payload` — `append_receipt` never inspects them. -/
inductive JVal (α : Type) where
  | str (s : String)
  | jnull
  | payload (a : α)
deriving DecidableEq, Repr

/-- A JSON object as an insertion-ordered key/value list (Python dict). -/
abbrev Record (α : Type) : Type := List (String × JVal α)

/-- Python dict assignment `d[k] = v`: update the value in place if the key
exists (keeping its position), otherwise append the pair at the end. -/
def dictInsert {α : Type} (d : Record α) (k : String) (v : JVal α) :
    Record α :=
  if d.any (fun p => p.1 == k) then
    d.map (fun p => if p.1 == k then (k, v) else p)
  else d ++ [(k, v)]

/-- The Python dict display `{"vrn": vrn, "periodKey": period_key,
**receipt}` from line 61: start from the two literal entries, then merge
the receipt's pairs in order, later keys overriding earlier ones. -/
def mergedRecord {α : Type} (vrn : String) (period_key : Option String)
    (receipt : Record α) : Record α :=
  receipt.foldl (fun acc p => dictInsert acc p.1 p.2)
    [("vrn", .str vrn),
     ("periodKey", match period_key with | none => .jnull | some s => .str s)]

/-- `append_receipt` (lines 54–62) as a transformation of the content of
`receipts.json`: a missing or unparsable file (`none`) is read as the empty
list; the merged record is appended and the whole list rewritten. -/
def append_receipt {α : Type} (file : Option (List (Record α)))
    (vrn : String) (period_key : Option String) (receipt : Record α) :
    List (Record α) :=
  let data := file.getD []
  data ++ [mergedRecord vrn period_key receipt]

/-- `/api/receipts` (lines 284–291), the `listAll()` operation: return the
stored list, or `[]` when the file is missing or unreadable. -/
def receipts {α : Type} (file : Option (List (Record α))) :
    List (Record α) :=
  file.getD []

/-! ### Persistence paths (module-level configuration) -/

/-- The module-level path bindings of `src/main.py`.  Lines 33–35 bind
`TOKEN_FILE`/`RECEIPTS_FILE` under the environment-configured `DATA_DIR`,
but lines 40–41 immediately rebind both to names in the current working
directory; the later binding is the one every read and write uses.
`pathlib.Path` division is modelled as string concatenation with `/`. -/
structure PathConfig where
  TOKEN_FILE : String
  RECEIPTS_FILE : String
deriving DecidableEq, Repr

/-- Module initialization of the persistence paths, line by line. -/
def initPaths (dataDir : String) : PathConfig :=
  let tokenFile := dataDir ++ "/tokens.json"        -- line 34
  let receiptsFile := dataDir ++ "/receipts.json"   -- line 35
  let tokenFile2 := "tokens.json"                   -- line 40
  let receiptsFile2 := "receipts.json"              -- line 41
  -- the line-34/35 bindings are dead: nothing reads them afterwards
  let _ := tokenFile
  let _ := receiptsFile
  { TOKEN_FILE := tokenFile2, RECEIPTS_FILE := receiptsFile2 }

/-- A path lies inside a directory when it extends the directory path
followed by a separator (compared character-wise). -/
def insideDir (dir p : String) : Bool :=
  List.isPrefixOf (dir ++ "/").data p.data

/-! ### Concrete fixtures used in closed instantiations -/

/-- A sample stored token set: obtained at time 1000, valid 3600 seconds. -/
def sampleTokens : TokenSet :=
  { access_token := "old_access", refresh_token := "old_refresh",
    expires_in := some 3600, obtained_at := some 1000 }

/-- A store holding `sampleTokens` in memory and on disk. -/
def sampleStore : Store :=
  { tokens := some sampleTokens, state := none, tokenFile := some sampleTokens }

/-- A successful token-endpoint reply carrying a fresh token pair. -/
def sampleReply : TokenEndpointReply :=
  { status := 200, body := "token payload",
    json := { access_token := "new_access", refresh_token := "new_refresh",
              expires_in := some 14400 } }

/-- A failing token-endpoint reply (the parsed-JSON slot is never read on
this path). -/
def failReply : TokenEndpointReply :=
  { status := 503, body := "service unavailable",
    json := { access_token := "", refresh_token := "", expires_in := none } }

/-- The state of a process that never completed the OAuth flow. -/
def emptyStore : Store := { tokens := none, state := none, tokenFile := none }

/-- A token set whose `obtained_at` stamp is absent. -/
def noStampTokens : TokenSet :=
  { access_token := "legacy_access", refresh_token := "legacy_refresh",
    expires_in := some 3600, obtained_at := none }

/-- A store holding the stamp-less `noStampTokens`. -/
def noStampStore : Store :=
  { tokens := some noStampTokens, state := none, tokenFile := some noStampTokens }

/-- A store with a pending OAuth nonce and no token set. -/
def pendingStore : Store :=
  { tokens := none, state := some "nonce-123", tokenFile := none }

/-- The authority's 403 obligations reply used in the spec's passthrough
scenario. -/
def forbiddenReply : HttpResponse :=
  { status := 403, body := "\x7b\"code\":\"CLIENT_OR_AGENT_NOT_AUTHORISED\"\x7d" }

/-! ### Unfolding lemmas -/

/-- `access_token` on a store with no token set. -/
theorem access_token_none (st : Store) (now : Int) (reply : TokenEndpointReply)
    (h : st.tokens = none) :
    access_token st now reply =
      { result := .error (.http 401 "Not connected to HMRC yet."),
        store := st, refreshCalls := 0, refreshTokenSent := none } := by
  unfold access_token; rw [h]

/-- `access_token` on a store holding token set `T`, as a case split over
the refresh condition and the endpoint reply. -/
theorem access_token_some (st : Store) (now : Int) (reply : TokenEndpointReply)
    (T : TokenSet) (h : st.tokens = some T) :
    access_token st now reply =
      (if truthy T.obtained_at &&
          decide (T.obtained_at.getD 0 + T.expires_in.getD 0 - 60 < now) then
        if reply.status ≥ 400 then
          { result := .error (.http reply.status reply.body), store := st,
            refreshCalls := 1, refreshTokenSent := some T.refresh_token }
        else
          { result := .ok reply.json.access_token,
            store := { st with
              tokens := some { access_token := reply.json.access_token,
                               refresh_token := reply.json.refresh_token,
                               expires_in := reply.json.expires_in,
                               obtained_at := some now },
              tokenFile := some { access_token := reply.json.access_token,
                                  refresh_token := reply.json.refresh_token,
                                  expires_in := reply.json.expires_in,
                                  obtained_at := some now } },
            refreshCalls := 1, refreshTokenSent := some T.refresh_token }
      else
        { result := .ok T.access_token, store := st, refreshCalls := 0,
          refreshTokenSent := none }) := by
  unfold access_token; rw [h]

/-- `oauth_callback` when the supplied state does not match the stored
nonce. -/
theorem oauth_callback_mismatch (st : Store) (state : String) (now : Int)
    (reply : TokenEndpointReply) (h : some state ≠ st.state) :
    oauth_callback st state now reply =
      { result := .error (.http 400 "state mismatch"), store := st,
        exchangeCalls := 0 } := by
  unfold oauth_callback; rw [if_pos h]

/-- `oauth_callback` when the state matches and the exchange succeeds. -/
theorem oauth_callback_matched_ok (st : Store) (state : String) (now : Int)
    (reply : TokenEndpointReply) (h : st.state = some state)
    (hok : reply.status < 400) :
    oauth_callback st state now reply =
      { result := .ok (),
        store := { st with
          tokens := some { access_token := reply.json.access_token,
                           refresh_token := reply.json.refresh_token,
                           expires_in := reply.json.expires_in,
                           obtained_at := some now },
          tokenFile := some { access_token := reply.json.access_token,
                              refresh_token := reply.json.refresh_token,
                              expires_in := reply.json.expires_in,
                              obtained_at := some now } },
        exchangeCalls := 1 } := by
  unfold oauth_callback
  rw [if_neg (fun hne => hne h.symm), if_neg (by omega)]

/-- Whenever the state matches the stored nonce, `oauth_callback` issues
exactly one authorization-code exchange, whatever the endpoint answers. -/
theorem oauth_callback_matched_calls (st : Store) (state : String) (now : Int)
    (reply : TokenEndpointReply) (h : st.state = some state) :
    (oauth_callback st state now reply).exchangeCalls = 1 := by
  unfold oauth_callback
  rw [if_neg (fun hne => hne h.symm)]
  by_cases h4 : reply.status ≥ 400
  · rw [if_pos h4]
  · rw [if_neg h4]

/-! ### Claim theorems -/

/-- C2: for every stored token set `T`, calling `access_token` at a time
`now` with `now < T.obtained_at + T.expires_in - 60` returns
`T.access_token` unchanged, issues no refresh request, and leaves the
stored token set (memory and file) unmodified. -/
theorem C2_fresh_token_returned_unchanged (st : Store) (T : TokenSet)
    (ob now : Int) (reply : TokenEndpointReply)
    (hT : st.tokens = some T) (hob : T.obtained_at = some ob)
    (hfresh : now < ob + T.expires_in.getD 0 - 60) :
    (access_token st now reply).result = .ok T.access_token ∧
    (access_token st now reply).refreshCalls = 0 ∧
    (access_token st now reply).refreshTokenSent = none ∧
    (access_token st now reply).store = st := by
  have hnotlt : ¬ (T.obtained_at.getD 0 + T.expires_in.getD 0 - 60 < now) := by
    rw [hob]; simp only [Option.getD_some]; omega
  have hcond : ¬ ((truthy T.obtained_at &&
      decide (T.obtained_at.getD 0 + T.expires_in.getD 0 - 60 < now)) = true) := by
    simp only [Bool.and_eq_true, decide_eq_true_eq]
    exact fun h => hnotlt h.2
  rw [access_token_some st now reply T hT, if_neg hcond]
  exact ⟨rfl, rfl, rfl, rfl⟩

/-- Witness for C2: a token obtained at 1000 with lifetime 3600, queried at
time 1500, is returned unchanged with no refresh. -/
theorem C2_fresh_token_returned_unchanged_witness :
    sampleStore.tokens = some sampleTokens ∧
    sampleTokens.obtained_at = some 1000 ∧
    (1500 : Int) < 1000 + sampleTokens.expires_in.getD 0 - 60 ∧
    (access_token sampleStore 1500 sampleReply).result = .ok "old_access" ∧
    (access_token sampleStore 1500 sampleReply).refreshCalls = 0 ∧
    (access_token sampleStore 1500 sampleReply).store = sampleStore := by
  have h := C2_fresh_token_returned_unchanged sampleStore sampleTokens
    1000 1500 sampleReply rfl rfl (by decide)
  exact ⟨rfl, rfl, by decide, h.1, h.2.1, h.2.2.2⟩

/-- C1 counterexample: at exactly `now = obtained_at + expires_in - 60`
(obtained at 1000, lifetime 3600, so the boundary is 4540) the source's
strict comparison does not fire: no refresh request is issued and the old
access token is returned, contradicting the claim's boundary case. -/
theorem C1_boundary_counterexample :
    sampleTokens.obtained_at = some 1000 ∧
    sampleTokens.expires_in = some 3600 ∧
    (4540 : Int) = 1000 + 3600 - 60 ∧
    (access_token sampleStore 4540 sampleReply).refreshCalls = 0 ∧
    (access_token sampleStore 4540 sampleReply).result = .ok "old_access" ∧
    (access_token sampleStore 4540 sampleReply).store = sampleStore := by
  exact ⟨rfl, rfl, by norm_num, rfl, rfl, rfl⟩

/-- C1 (amended): for every stored token set `T` whose `obtained_at` stamp
is present and nonzero, calling `access_token` at `now` strictly after
`T.obtained_at + T.expires_in - 60` issues exactly one refresh request
(carrying `T.refresh_token`), stamps the new token set's
`obtained_at = now`, replaces both the in-memory and the persisted copy,
and returns the new access token. -/
theorem C1_refresh_strictly_after_window (st : Store) (T : TokenSet)
    (ob now : Int) (reply : TokenEndpointReply)
    (hT : st.tokens = some T) (hob : T.obtained_at = some ob) (hnz : ob ≠ 0)
    (hexp : ob + T.expires_in.getD 0 - 60 < now) (hok : reply.status < 400) :
    (access_token st now reply).refreshCalls = 1 ∧
    (access_token st now reply).refreshTokenSent = some T.refresh_token ∧
    (access_token st now reply).result = .ok reply.json.access_token ∧
    (access_token st now reply).store.tokens =
      some { access_token := reply.json.access_token,
             refresh_token := reply.json.refresh_token,
             expires_in := reply.json.expires_in,
             obtained_at := some now } ∧
    (access_token st now reply).store.tokenFile =
      (access_token st now reply).store.tokens ∧
    (access_token st now reply).store.state = st.state := by
  have hlt : T.obtained_at.getD 0 + T.expires_in.getD 0 - 60 < now := by
    rw [hob]; simpa using hexp
  have hcond : (truthy T.obtained_at &&
      decide (T.obtained_at.getD 0 + T.expires_in.getD 0 - 60 < now)) = true := by
    simp only [Bool.and_eq_true, decide_eq_true_eq]
    refine ⟨?_, hlt⟩
    rw [hob]; simpa [truthy] using hnz
  have hstat : ¬ (reply.status ≥ 400) := by omega
  rw [access_token_some st now reply T hT, if_pos hcond, if_neg hstat]
  exact ⟨rfl, rfl, rfl, rfl, rfl, rfl⟩

/-- Witness for C1 (amended): the sample token queried at 5000 (past the
boundary 4540) triggers one refresh and returns the new token, stamped and
persisted. -/
theorem C1_refresh_strictly_after_window_witness :
    (1000 : Int) + sampleTokens.expires_in.getD 0 - 60 < 5000 ∧
    (access_token sampleStore 5000 sampleReply).refreshCalls = 1 ∧
    (access_token sampleStore 5000 sampleReply).refreshTokenSent =
      some "old_refresh" ∧
    (access_token sampleStore 5000 sampleReply).result = .ok "new_access" ∧
    (access_token sampleStore 5000 sampleReply).store.tokens =
      some { access_token := "new_access", refresh_token := "new_refresh",
             expires_in := some 14400, obtained_at := some 5000 } ∧
    (access_token sampleStore 5000 sampleReply).store.tokenFile =
      (access_token sampleStore 5000 sampleReply).store.tokens := by
  have h := C1_refresh_strictly_after_window sampleStore sampleTokens
    1000 5000 sampleReply rfl rfl (by decide) (by decide) (by decide)
  exact ⟨by decide, h.1, h.2.1, h.2.2.1, h.2.2.2.1, h.2.2.2.2.1⟩

/-- C4: when the token is past its early-refresh window and the refresh
exchange fails with status ≥ 400, the failure propagates as an exception
carrying that status and body, the stale token set is left untouched in
memory and on disk, and a subsequent call (still past the window) retries
the refresh with the same refresh token. -/
theorem C4_refresh_failure_leaves_tokens (st : Store) (T : TokenSet)
    (ob now : Int) (reply : TokenEndpointReply)
    (hT : st.tokens = some T) (hob : T.obtained_at = some ob) (hnz : ob ≠ 0)
    (hexp : ob + T.expires_in.getD 0 - 60 < now) (hfail : 400 ≤ reply.status) :
    (access_token st now reply).result =
      .error (.http reply.status reply.body) ∧
    (access_token st now reply).store = st ∧
    (access_token st now reply).refreshCalls = 1 ∧
    (∀ reply2 : TokenEndpointReply,
      (access_token (access_token st now reply).store now reply2).refreshCalls
        = 1 ∧
      (access_token (access_token st now reply).store now
        reply2).refreshTokenSent = some T.refresh_token) := by
  have hcond : (truthy T.obtained_at &&
      decide (T.obtained_at.getD 0 + T.expires_in.getD 0 - 60 < now)) = true := by
    simp only [Bool.and_eq_true, decide_eq_true_eq]
    exact ⟨by rw [hob]; simpa [truthy] using hnz,
      by rw [hob]; simpa using hexp⟩
  have hmain : access_token st now reply =
      { result := .error (.http reply.status reply.body), store := st,
        refreshCalls := 1, refreshTokenSent := some T.refresh_token } := by
    rw [access_token_some st now reply T hT, if_pos hcond, if_pos hfail]
  refine ⟨by rw [hmain], by rw [hmain], by rw [hmain], ?_⟩
  intro reply2
  rw [hmain]
  rw [access_token_some st now reply2 T hT, if_pos hcond]
  by_cases h4 : reply2.status ≥ 400
  · rw [if_pos h4]; exact ⟨rfl, rfl⟩
  · rw [if_neg h4]; exact ⟨rfl, rfl⟩

/-- Witness for C4: the sample token at 5000 with a 503 refresh reply: the
503 and its body propagate, the store keeps the stale token set, and a
retry sends the same refresh token again. -/
theorem C4_refresh_failure_leaves_tokens_witness :
    (1000 : Int) + sampleTokens.expires_in.getD 0 - 60 < 5000 ∧
    400 ≤ failReply.status ∧
    (access_token sampleStore 5000 failReply).result =
      .error (.http 503 "service unavailable") ∧
    (access_token sampleStore 5000 failReply).store = sampleStore ∧
    (access_token (access_token sampleStore 5000 failReply).store 5000
      sampleReply).refreshTokenSent = some "old_refresh" := by
  have h := C4_refresh_failure_leaves_tokens sampleStore sampleTokens
    1000 5000 failReply rfl rfl (by decide) (by decide) (by decide)
  exact ⟨by decide, by decide, h.1, h.2.1, (h.2.2.2 sampleReply).2⟩

/-- C7: with no stored token set, `access_token` fails with the 401
"Not connected" exception, issues no network request, leaves the state
unchanged, and every API route surfaces the same 401 to its caller. -/
theorem C7_not_connected (st : Store) (now : Int) (reply : TokenEndpointReply)
    (h : st.tokens = none) :
    (access_token st now reply).result =
      .error (.http 401 "Not connected to HMRC yet.") ∧
    (access_token st now reply).refreshCalls = 0 ∧
    (access_token st now reply).refreshTokenSent = none ∧
    (access_token st now reply).store = st ∧
    (∀ upstream : HttpResponse,
      obligations_route st now reply upstream =
        .error (.http 401 "Not connected to HMRC yet.") ∧
      view_return_route st now reply upstream =
        .error (.http 401 "Not connected to HMRC yet.")) := by
  have hmain := access_token_none st now reply h
  refine ⟨by rw [hmain], by rw [hmain], by rw [hmain], by rw [hmain], ?_⟩
  intro upstream
  constructor
  · unfold obligations_route; rw [hmain]
  · unfold view_return_route; rw [hmain]

/-- Witness for C7: the never-connected store always yields the 401. -/
theorem C7_not_connected_witness :
    emptyStore.tokens = none ∧
    (access_token emptyStore 1000 sampleReply).result =
      .error (.http 401 "Not connected to HMRC yet.") ∧
    (access_token emptyStore 1000 sampleReply).refreshCalls = 0 ∧
    obligations_route emptyStore 1000 sampleReply forbiddenReply =
      .error (.http 401 "Not connected to HMRC yet.") := by
  have h := C7_not_connected emptyStore 1000 sampleReply rfl
  exact ⟨rfl, h.1, h.2.1, (h.2.2.2.2 forbiddenReply).1⟩

/-- C10: when the stored token set's `obtained_at` is absent or zero
(Python-falsy), `access_token` skips the expiry check: it never refreshes
and returns the stored access token, whatever `expires_in` and the clock
say. -/
theorem C10_falsy_stamp_skips_refresh (st : Store) (T : TokenSet)
    (now : Int) (reply : TokenEndpointReply)
    (hT : st.tokens = some T) (hfalsy : truthy T.obtained_at = false) :
    (access_token st now reply).result = .ok T.access_token ∧
    (access_token st now reply).refreshCalls = 0 ∧
    (access_token st now reply).refreshTokenSent = none ∧
    (access_token st now reply).store = st := by
  rw [access_token_some st now reply T hT,
    if_neg (by simp [hfalsy])]
  exact ⟨rfl, rfl, rfl, rfl⟩

/-- Witness for C10: the stamp-less token set is returned unchanged far in
the future, with no refresh request. -/
theorem C10_falsy_stamp_skips_refresh_witness :
    noStampStore.tokens = some noStampTokens ∧
    truthy noStampTokens.obtained_at = false ∧
    (access_token noStampStore 999999 sampleReply).result =
      .ok "legacy_access" ∧
    (access_token noStampStore 999999 sampleReply).refreshCalls = 0 ∧
    (access_token noStampStore 999999 sampleReply).store = noStampStore := by
  have h := C10_falsy_stamp_skips_refresh noStampStore noStampTokens
    999999 sampleReply rfl rfl
  exact ⟨rfl, rfl, h.1, h.2.1, h.2.2.2⟩

/-- C3: whenever a token was obtained and the upstream authority API
answers with status ≥ 400, both the obligations route and the view-return
route fail with exactly that status and the raw upstream body, verbatim. -/
theorem C3_upstream_error_passthrough (st : Store) (now : Int)
    (rr : TokenEndpointReply) (up : HttpResponse) (tok : String)
    (htok : (access_token st now rr).result = .ok tok)
    (herr : 400 ≤ up.status) :
    obligations_route st now rr up = .error (.http up.status up.body) ∧
    view_return_route st now rr up = .error (.http up.status up.body) := by
  constructor
  · unfold obligations_route; rw [htok]; exact if_pos herr
  · unfold view_return_route; rw [htok]; exact if_pos herr

/-- Witness for C3: the spec's scenario — a 403 with body
`{"code":"CLIENT_OR_AGENT_NOT_AUTHORISED"}` on an obligations call —
surfaces as a 403 carrying that exact body. -/
theorem C3_upstream_error_passthrough_witness :
    (access_token sampleStore 1500 sampleReply).result = .ok "old_access" ∧
    400 ≤ forbiddenReply.status ∧
    obligations_route sampleStore 1500 sampleReply forbiddenReply =
      .error (.http 403 "\x7b\"code\":\"CLIENT_OR_AGENT_NOT_AUTHORISED\"\x7d") ∧
    view_return_route sampleStore 1500 sampleReply forbiddenReply =
      .error (.http 403 "\x7b\"code\":\"CLIENT_OR_AGENT_NOT_AUTHORISED\"\x7d") := by
  have h := C3_upstream_error_passthrough sampleStore 1500 sampleReply
    forbiddenReply "old_access" rfl (by decide)
  exact ⟨rfl, by decide, h.1, h.2⟩

/-- C5: a callback whose `state` differs from the pending nonce `N` fails
with the 400 "state mismatch" exception before any token exchange, and
leaves the whole store — pending nonce and token set — unchanged, so a
retried callback carrying `N` (with a successful exchange) still
succeeds. -/
theorem C5_state_mismatch_keeps_nonce (st : Store) (N state : String)
    (now : Int) (reply : TokenEndpointReply)
    (hN : st.state = some N) (hne : state ≠ N) :
    (oauth_callback st state now reply).result =
      .error (.http 400 "state mismatch") ∧
    (oauth_callback st state now reply).exchangeCalls = 0 ∧
    (oauth_callback st state now reply).store = st ∧
    (∀ (now2 : Int) (reply2 : TokenEndpointReply), reply2.status < 400 →
      (oauth_callback (oauth_callback st state now reply).store N now2
        reply2).result = .ok ()) := by
  have hmis : some state ≠ st.state := by
    rw [hN]; exact fun hsome => hne (Option.some.inj hsome)
  have hmain := oauth_callback_mismatch st state now reply hmis
  refine ⟨by rw [hmain], by rw [hmain], by rw [hmain], ?_⟩
  intro now2 reply2 hok2
  rw [hmain]
  rw [oauth_callback_matched_ok st N now2 reply2 hN hok2]

/-- Witness for C5: a callback with state "wrong-state" against pending
nonce "nonce-123" yields a 400, changes nothing, and the retry with the
right state succeeds. -/
theorem C5_state_mismatch_keeps_nonce_witness :
    pendingStore.state = some "nonce-123" ∧
    "wrong-state" ≠ "nonce-123" ∧
    (oauth_callback pendingStore "wrong-state" 100 sampleReply).result =
      .error (.http 400 "state mismatch") ∧
    (oauth_callback pendingStore "wrong-state" 100 sampleReply).store =
      pendingStore ∧
    (oauth_callback (oauth_callback pendingStore "wrong-state" 100
      sampleReply).store "nonce-123" 200 sampleReply).result = .ok () := by
  have h := C5_state_mismatch_keeps_nonce pendingStore "nonce-123"
    "wrong-state" 100 sampleReply rfl (by decide)
  exact ⟨rfl, by decide, h.1, h.2.2.1, h.2.2.2 200 sampleReply (by decide)⟩

/-- C9: a successful callback replaces the token set but never clears the
pending nonce slot, so a duplicate callback replaying the same `state`
passes the equality check and triggers another authorization-code
exchange; only a new connect action overwrites the nonce. -/
theorem C9_nonce_survives_successful_callback (st : Store) (N : String)
    (now : Int) (reply : TokenEndpointReply)
    (hN : st.state = some N) (hok : reply.status < 400) :
    (oauth_callback st N now reply).result = .ok () ∧
    (oauth_callback st N now reply).store.state = st.state ∧
    (oauth_callback st N now reply).store.tokens =
      some { access_token := reply.json.access_token,
             refresh_token := reply.json.refresh_token,
             expires_in := reply.json.expires_in,
             obtained_at := some now } ∧
    (oauth_callback st N now reply).exchangeCalls = 1 ∧
    (∀ (now2 : Int) (reply2 : TokenEndpointReply),
      (oauth_callback (oauth_callback st N now reply).store N now2
        reply2).exchangeCalls = 1) ∧
    (∀ nonce2 : String,
      (connect (oauth_callback st N now reply).store nonce2).state =
        some nonce2) := by
  have hmain := oauth_callback_matched_ok st N now reply hN hok
  refine ⟨by rw [hmain], by rw [hmain], by rw [hmain], by rw [hmain], ?_, ?_⟩
  · intro now2 reply2
    refine oauth_callback_matched_calls _ N now2 reply2 ?_
    rw [hmain]; exact hN
  · intro nonce2; rfl

/-- Witness for C9: after the successful callback on "nonce-123" the nonce
slot still holds "nonce-123" and a replayed callback exchanges again. -/
theorem C9_nonce_survives_successful_callback_witness :
    pendingStore.state = some "nonce-123" ∧
    sampleReply.status < 400 ∧
    (oauth_callback pendingStore "nonce-123" 100 sampleReply).result =
      .ok () ∧
    (oauth_callback pendingStore "nonce-123" 100 sampleReply).store.state =
      some "nonce-123" ∧
    (oauth_callback (oauth_callback pendingStore "nonce-123" 100
      sampleReply).store "nonce-123" 200 sampleReply).exchangeCalls = 1 := by
  have h := C9_nonce_survives_successful_callback pendingStore "nonce-123"
    100 sampleReply rfl (by decide)
  exact ⟨rfl, by decide, h.1, h.2.1, h.2.2.2.2.1 200 sampleReply⟩

/-- C6: appending a receipt and then listing yields the merged record
`{vrn, periodKey, **r}` as the last element, for any prior file content;
and listing with nothing persisted returns the empty list. -/
theorem C6_receipt_roundtrip {α : Type} (file : Option (List (Record α)))
    (vrn : String) (pk : Option String) (r : Record α) :
    (receipts (some (append_receipt file vrn pk r))).getLast? =
      some (mergedRecord vrn pk r) ∧
    receipts (none : Option (List (Record α))) = [] := by
  constructor
  · simp [receipts, append_receipt]
  · rfl

/-- C8: the persistence paths ignore the configured data directory — with
`DATA_DIR = "/data"` the effective files are still `tokens.json` and
`receipts.json` in the working directory, not inside `/data`, because the
line-40/41 rebindings shadow the `DATA_DIR`-based ones. -/
theorem C8_paths_ignore_data_dir :
    (initPaths "/data").TOKEN_FILE = "tokens.json" ∧
    (initPaths "/data").RECEIPTS_FILE = "receipts.json" ∧
    insideDir "/data" (initPaths "/data").TOKEN_FILE = false ∧
    insideDir "/data" (initPaths "/data").RECEIPTS_FILE = false := by
  exact ⟨rfl, rfl, by decide, by decide⟩

end MTD
